import Mathlib

/-!
Verification development for the softrams database connector wrappers
(MySQL adapter and Snowflake adapter). The two JavaScript modules are
shallowly embedded: module-level mutable state (the config holder and the
pool registry) becomes explicit state passing, promise rejection becomes an
explicit result constructor, and the external collaborators (the mysql and
snowflake driver pool constructors, the AWS secrets store, the filesystem)
become oracle parameters supplied by the environment. JavaScript truthiness
on the option-typed configuration fields is modelled explicitly.
-/

/-- Truthiness of an optional JS string: undefined and the empty string are
falsy, every other string is truthy. -/
def jsTruthy : Option String → Bool
  | none => false
  | some s => s != ""

/-- Truthiness of an optional JS number (config fields that hold numbers):
undefined and 0 are falsy. -/
def jsNatTruthy : Option Nat → Bool
  | none => false
  | some n => n != 0

/-- JS expression "x || d" on an optional boolean field: a truthy value is
kept, a falsy one (false or undefined) is replaced by the default. -/
def jsOrBool : Option Bool → Bool → Bool
  | some b, d => if b then b else d
  | none, d => d

/-- JS expression "x || d" on an optional numeric field: 0 and undefined
fall back to the default. -/
def jsOrNat : Option Nat → Nat → Nat
  | some n, d => if n != 0 then n else d
  | none, d => d

/-- JS expression "x || d" on an optional string field: the empty string and
undefined fall back to the default. -/
def jsOrStr : Option String → String → String
  | some s, d => if s != "" then s else d
  | none, d => d

/-- Lookup in a string-keyed object, modelled as an association list with
unique keys (JS object property access). -/
def lookupKey {α : Type} (r : List (String × α)) (k : String) : Option α :=
  match r with
  | [] => none
  | (k1, v) :: rest => if k1 = k then some v else lookupKey rest k

/-- JS property assignment on a string-keyed object: the key now maps to the
new value and any previous binding for it is gone. -/
def setKey {α : Type} (r : List (String × α)) (k : String) (v : α) : List (String × α) :=
  (k, v) :: r.filter (fun e => e.1 != k)

/-- JS delete of a property from a string-keyed object. -/
def eraseKey {α : Type} (r : List (String × α)) (k : String) : List (String × α) :=
  r.filter (fun e => e.1 != k)

/-- Whitespace characters removed by the JS string trim method (the common
ones; exotic Unicode space classes do not occur in the configurations the
claims quantify over). -/
def isJsWhitespace (c : Char) : Bool := c = ' ' || c = '\t' || c = '\n' || c = '\r'

/-- The JS trim() method: strip whitespace from both ends of a string. -/
def jsTrim (s : String) : String :=
  String.mk (((s.data.dropWhile isJsWhitespace).reverse.dropWhile isJsWhitespace).reverse)

/-- The fixed generic message both adapters substitute for driver errors when
HIDE_DB_ERRORS is set. -/
def genericError : String := "An error occurred communicating with the database."

/-- Observable outcome of the promise returned by the query helper of either
adapter: resolution with rows, or rejection carrying an optional error
message (rejection with no argument carries none). -/
inductive QueryResult where
  | resolved (rows : List String)
  | rejectedWith (payload : Option String)
deriving Repr, DecidableEq

namespace MySql

/-- SSL block of a MySQL datasource configuration. REJECT_UNAUTHORIZED is an
optional property; presence (hasOwnProperty) is modelled by isSome. -/
structure SslCfg where
  CUSTOM_CERT : Option String := none
  REJECT_UNAUTHORIZED : Option Bool := none
deriving Repr, DecidableEq

/-- One entry of config.DATASOURCES for the MySQL adapter. Absent fields are
none. -/
structure SrcCfg where
  DB_CONNECTION_LIMIT : Option Nat := none
  DB_HOST : Option String := none
  DB_USER : Option String := none
  DB_PASSWORD : Option String := none
  DB_DATABASE : Option String := none
  PORT : Option Nat := none
  ALLOW_MULTI_STATEMENTS : Option Bool := none
  TIMEZONE : Option String := none
  TYPE_CAST : Option Bool := none
  DATE_STRINGS : Option Bool := none
  SSL : Option SslCfg := none
deriving Repr, DecidableEq

/-- The ssl option object built inside createPool when srcCfg.SSL is set. -/
structure SslOptions where
  ca : Option String
  rejectUnauthorized : Option Bool
deriving Repr, DecidableEq

/-- Connection options passed to mysql.createPool. -/
structure MySqlOptions where
  connectionLimit : Nat
  host : Option String
  user : Option String
  password : Option String
  database : Option String
  port : Option Nat
  multipleStatements : Bool
  timezone : String
  typeCast : Bool
  dateStrings : Bool
  ssl : Option SslOptions
deriving Repr, DecidableEq

/-- The sslConfig object literal built by createPool from srcCfg.SSL: a
custom cert wins; otherwise rejectUnauthorized is the configured value when
the property is present and true when it is absent. -/
def buildSslOptions (ssl : SslCfg) : SslOptions :=
  if jsTruthy ssl.CUSTOM_CERT then
    { ca := ssl.CUSTOM_CERT, rejectUnauthorized := none }
  else
    { ca := none, rejectUnauthorized := some (ssl.REJECT_UNAUTHORIZED.getD true) }

/-- The options object literal built by createPool from a present datasource
configuration (the body of the if-branch of createPool, factored out so the
built options can be stated about directly). -/
def buildOptions (cfg : SrcCfg) : MySqlOptions :=
  { connectionLimit := jsOrNat cfg.DB_CONNECTION_LIMIT 5
    host := cfg.DB_HOST
    user := cfg.DB_USER
    password := cfg.DB_PASSWORD
    database := cfg.DB_DATABASE
    port := cfg.PORT
    multipleStatements := jsOrBool cfg.ALLOW_MULTI_STATEMENTS false
    timezone := jsOrStr cfg.TIMEZONE "local"
    typeCast := jsOrBool cfg.TYPE_CAST true
    dateStrings := jsOrBool cfg.DATE_STRINGS false
    ssl := if cfg.SSL.isSome then cfg.SSL.map buildSslOptions else none }

/-- A handle returned by mysql.createPool, identified by the options it was
created with (the driver pool itself is external). -/
structure MySqlPool where
  options : MySqlOptions
deriving Repr, DecidableEq

/-- The module-level configuration set by init for the MySQL adapter. -/
structure Config where
  DATASOURCES : List (String × SrcCfg) := []
  HIDE_DB_ERRORS : Bool := false
deriving Repr, DecidableEq

/-- Module state of the MySQL adapter: the config holder and the pools
registry. -/
structure State where
  config : Config := {}
  pools : List (String × MySqlPool) := []
deriving Repr, DecidableEq

/-- createPool(poolName): if the datasource configuration exists, build the
options object and register a driver pool under the name, returning true;
otherwise log and return false. No field of the configuration is validated.
The surrounding try/catch never fires in this model because building an
options object and constructing a lazy driver pool do not throw. -/
def createPool (st : State) (poolName : String) : State × Bool :=
  match lookupKey st.config.DATASOURCES poolName with
  | some cfg =>
    ({ st with pools := setKey st.pools poolName { options := buildOptions cfg } }, true)
  | none => (st, false)

/-- connect(poolName): create the pool when absent, then return whatever the
registry now holds for the name (possibly undefined, modelled as none). The
catch branch that rethrows is unreachable because createPool traps all of
its own failures and returns a boolean, so the result is always ok. -/
def connect (st : State) (poolName : String) : State × Except String (Option MySqlPool) :=
  let st1 := if (lookupKey st.pools poolName).isNone then (createPool st poolName).1 else st
  (st1, Except.ok (lookupKey st1.pools poolName))

/-- Outcome of the underlying conn.query call, supplied by the driver: rows,
an error passed to the callback, or a synchronous throw from the call. -/
inductive DriverOutcome where
  | ok (rows : List String)
  | err (msg : String)
  | syncThrow (msg : String)
deriving Repr, DecidableEq

/-- handleError(reject, error): reject with the fixed generic message when
HIDE_DB_ERRORS is set, otherwise with the original error. -/
def handleError (hideDbErrors : Bool) (error : String) : Option String :=
  if hideDbErrors then some genericError else some error

/-- query(conn, query, params) for the MySQL adapter: callback errors and
synchronous throws both go through handleError; success resolves the rows. -/
def query (hideDbErrors : Bool) (outcome : DriverOutcome) : QueryResult :=
  match outcome with
  | .ok rows => .resolved rows
  | .err msg => .rejectedWith (handleError hideDbErrors msg)
  | .syncThrow msg => .rejectedWith (handleError hideDbErrors msg)

end MySql

namespace Snow

/-- One entry of config.DATASOURCES for the Snowflake adapter. Absent fields
are none. -/
structure SrcCfg where
  DB_HOST : Option String := none
  DB_USER : Option String := none
  DB_DATABASE : Option String := none
  SCHEMA : Option String := none
  PORT : Option Nat := none
  WAREHOUSE : Option String := none
  ROLE : Option String := none
  PRIVATE_KEY_PASSPHRASE : Option String := none
  PRIVATE_KEY_PATH : Option String := none
  PRIVATE_KEY_SECRET_NAME : Option String := none
  PRIVATE_KEY_FIELD_NAME : Option String := none
  POOL_MAX : Option Nat := none
  POOL_MIN : Option Nat := none
deriving Repr, DecidableEq

/-- A value stored under a top-level key of the parsed JSON secret payload:
either a string, or a non-string JSON value with the given truthiness. -/
inductive JsVal where
  | str (s : String)
  | other (truthy : Bool)
deriving Repr, DecidableEq

/-- Truthiness of a JSON field value (an absent field is handled at the
lookup). -/
def jsValTruthy : JsVal → Bool
  | .str s => s != ""
  | .other t => t

/-- Combined observable outcome of getSecretValue on a secret name followed
by the SecretString check and JSON.parse, as performed by
getPrivateKeyFromSecrets: the call can reject, the secret can lack a
SecretString, the payload can fail to parse, or it parses to a field-keyed
record. -/
inductive SecretResult where
  | rejected (msg : String)
  | noString
  | unparseable (msg : String)
  | record (fields : List (String × JsVal))
deriving Repr

/-- External collaborators of the Snowflake adapter: the secrets store
(AWS Secrets Manager, already composed with JSON.parse) and the filesystem
read used for PRIVATE_KEY_PATH (error message or file contents). -/
structure Env where
  secrets : String → SecretResult
  readFile : String → Except String String

/-- getPrivateKeyFromSecrets(srcCfg): requires a secret name, fetches and
parses the secret, requires the configured field name, and returns the
field value when it is a truthy string with non-blank trim; every failure
is a thrown error with the message built in the source. An absent field and
a present-but-falsy field take the same error naming the available
top-level keys of the parsed secret. -/
def getPrivateKeyFromSecrets (secrets : String → SecretResult) (srcCfg : SrcCfg) :
    Except String String :=
  if !jsTruthy srcCfg.PRIVATE_KEY_SECRET_NAME then
    .error "PRIVATE_KEY_SECRET_NAME is required but not provided"
  else
    let secretName := srcCfg.PRIVATE_KEY_SECRET_NAME.getD ""
    match secrets secretName with
    | .rejected msg => .error msg
    | .noString => .error ("Secret " ++ secretName ++ " does not contain a SecretString")
    | .unparseable msg =>
      .error ("Failed to parse secret " ++ secretName ++ " as JSON: " ++ msg)
    | .record secretData =>
      if !jsTruthy srcCfg.PRIVATE_KEY_FIELD_NAME then
        .error ("PRIVATE_KEY_FIELD_NAME is required when using AWS Secrets Manager for "
          ++ secretName)
      else
        let fieldName := srcCfg.PRIVATE_KEY_FIELD_NAME.getD ""
        match lookupKey secretData fieldName with
        | none =>
          .error ("Private key not found in secret " ++ secretName ++ ". Field \x27"
            ++ fieldName ++ "\x27 does not exist. Available fields: "
            ++ String.intercalate ", " (secretData.map Prod.fst))
        | some v =>
          if !jsValTruthy v then
            .error ("Private key not found in secret " ++ secretName ++ ". Field \x27"
              ++ fieldName ++ "\x27 does not exist. Available fields: "
              ++ String.intercalate ", " (secretData.map Prod.fst))
          else
            match v with
            | .str s =>
              if (jsTrim s).length = 0 then
                .error ("Private key found in secret " ++ secretName
                  ++ " but it is empty or not a string")
              else .ok s
            | .other _ =>
              .error ("Private key found in secret " ++ secretName
                ++ " but it is empty or not a string")

/-- validateConfiguration(srcCfg, poolName): missing configuration, then the
four required fields, then the requirement that at least one private key
source is set, then non-blank trims for whichever of the two is set.
Returns the error message, or none when valid. -/
def validateConfiguration (srcCfg : Option SrcCfg) (poolName : String) : Option String :=
  match srcCfg with
  | none => some ("Missing configuration for " ++ poolName)
  | some cfg =>
    let missing := (([("DB_HOST", cfg.DB_HOST), ("DB_USER", cfg.DB_USER),
      ("DB_DATABASE", cfg.DB_DATABASE), ("SCHEMA", cfg.SCHEMA)].filter
        (fun p => !jsTruthy p.2)).map Prod.fst)
    if missing.length > 0 then
      some ("Missing required configuration fields for " ++ poolName ++ ": "
        ++ String.intercalate ", " missing)
    else if !jsTruthy cfg.PRIVATE_KEY_PATH && !jsTruthy cfg.PRIVATE_KEY_SECRET_NAME then
      some ("Authentication configuration missing for " ++ poolName
        ++ ". Must provide either PRIVATE_KEY_PATH or PRIVATE_KEY_SECRET_NAME")
    else if jsTruthy cfg.PRIVATE_KEY_SECRET_NAME
        && !jsTruthy (cfg.PRIVATE_KEY_SECRET_NAME.map jsTrim) then
      some ("PRIVATE_KEY_SECRET_NAME for " ++ poolName ++ " cannot be empty")
    else if jsTruthy cfg.PRIVATE_KEY_PATH
        && !jsTruthy (cfg.PRIVATE_KEY_PATH.map jsTrim) then
      some ("PRIVATE_KEY_PATH for " ++ poolName ++ " cannot be empty")
    else
      none

/-- Connection options passed to snowflake.createPool, as built by
buildConnectionOptions and then extended with the private key. Optional
parameters are added only when the configured value is truthy. -/
structure ConnOptions where
  account : Option String := none
  username : Option String := none
  database : Option String := none
  schema : Option String := none
  authenticator : String := "SNOWFLAKE_JWT"
  port : Option Nat := none
  warehouse : Option String := none
  role : Option String := none
  privateKeyPassphrase : Option String := none
  privateKey : Option String := none
deriving Repr, DecidableEq

/-- buildConnectionOptions(srcCfg): the base options object, before the
private key is attached. -/
def buildConnectionOptions (cfg : SrcCfg) : ConnOptions :=
  { account := cfg.DB_HOST
    username := cfg.DB_USER
    database := cfg.DB_DATABASE
    schema := cfg.SCHEMA
    authenticator := "SNOWFLAKE_JWT"
    port := if jsNatTruthy cfg.PORT then cfg.PORT else none
    warehouse := if jsTruthy cfg.WAREHOUSE then cfg.WAREHOUSE else none
    role := if jsTruthy cfg.ROLE then cfg.ROLE else none
    privateKeyPassphrase :=
      if jsTruthy cfg.PRIVATE_KEY_PASSPHRASE then cfg.PRIVATE_KEY_PASSPHRASE else none
    privateKey := none }

/-- A handle returned by snowflake.createPool: the options plus the pool
bounds (max defaults to 10, min to 0). -/
structure SnowPool where
  options : ConnOptions
  max : Nat
  min : Nat
deriving Repr, DecidableEq

/-- The module-level configuration set by init for the Snowflake adapter. -/
structure Config where
  DATASOURCES : List (String × SrcCfg) := []
  HIDE_DB_ERRORS : Bool := false
deriving Repr

/-- Module state of the Snowflake adapter: the config holder and the pools
registry. -/
structure State where
  config : Config := {}
  pools : List (String × SnowPool) := []
deriving Repr

/-- createSnowPool(poolName): validate the configuration (false on any
validation error), resolve the private key from the secrets store when
PRIVATE_KEY_SECRET_NAME is truthy, otherwise from the file when
PRIVATE_KEY_PATH is truthy (false when resolution throws, via the inner
catch), then register the driver pool and return true. The secret branch is
tested first, so it takes precedence when both sources are configured. -/
def createSnowPool (env : Env) (st : State) (poolName : String) : State × Bool :=
  let srcCfg := lookupKey st.config.DATASOURCES poolName
  match validateConfiguration srcCfg poolName with
  | some _ => (st, false)
  | none =>
    match srcCfg with
    | none => (st, false)
    | some cfg =>
      let options := buildConnectionOptions cfg
      let keyResult : Except String (Option String) :=
        if jsTruthy cfg.PRIVATE_KEY_SECRET_NAME then
          (getPrivateKeyFromSecrets env.secrets cfg).map some
        else if jsTruthy cfg.PRIVATE_KEY_PATH then
          (env.readFile (cfg.PRIVATE_KEY_PATH.getD "")).map some
        else Except.ok none
      match keyResult with
      | .error _ => (st, false)
      | .ok pk =>
        let pool : SnowPool :=
          { options := { options with privateKey := pk }
            max := jsOrNat cfg.POOL_MAX 10
            min := jsOrNat cfg.POOL_MIN 0 }
        ({ st with pools := setKey st.pools poolName pool }, true)

/-- connect(poolName): create the pool when absent, then return whatever the
registry now holds for the name (possibly undefined, modelled as none). The
catch branch that rethrows is unreachable because createSnowPool traps all
of its own failures and returns a boolean, so the result is always ok. -/
def connect (env : Env) (st : State) (poolName : String) :
    State × Except String (Option SnowPool) :=
  let st1 := if (lookupKey st.pools poolName).isNone then (createSnowPool env st poolName).1
    else st
  (st1, Except.ok (lookupKey st1.pools poolName))

/-- Outcome of the underlying statement execution, supplied by the driver:
rows handed to the complete callback, an error handed to the complete
callback, or a synchronous throw from conn.use or clientConnection.execute. -/
inductive DriverOutcome where
  | ok (rows : List String)
  | completeErr (msg : String)
  | syncThrow (msg : String)
deriving Repr, DecidableEq

/-- handleError(reject, error): reject with the fixed generic message when
HIDE_DB_ERRORS is set, otherwise with the original error. -/
def handleError (hideDbErrors : Bool) (error : String) : Option String :=
  if hideDbErrors then some genericError else some error

/-- query(conn, query, params) for the Snowflake adapter: an error reported
to the complete callback is answered by a bare reject() carrying no
payload; a synchronous throw goes through handleError; success resolves the
rows. -/
def query (hideDbErrors : Bool) (outcome : DriverOutcome) : QueryResult :=
  match outcome with
  | .ok rows => .resolved rows
  | .completeErr _ => .rejectedWith none
  | .syncThrow msg => .rejectedWith (handleError hideDbErrors msg)

end Snow

/-- closePool(poolAlias), identical in both adapter modules: when a pool is
registered under the alias it is removed from the registry and its end
callback is invoked (an end error is only logged; a synchronous throw from
end is caught and turns the result false, the entry staying removed);
otherwise true is returned with the registry untouched. The behaviour of
the external end call is the endThrows oracle. -/
def closePool {α : Type} (endThrows : String → Bool) (pools : List (String × α))
    (poolAlias : String) : List (String × α) × Bool :=
  match lookupKey pools poolAlias with
  | some _ =>
    if endThrows poolAlias then (eraseKey pools poolAlias, false)
    else (eraseKey pools poolAlias, true)
  | none => (pools, true)

/-- closeAllPools(), identical in both adapter modules: iterate over the
snapshot of registered names, call closePool on each (its boolean result is
ignored and it never throws) and delete the entry again, then return true.
The catch branch is unreachable because closePool traps its own failures. -/
def closeAllPools {α : Type} (endThrows : String → Bool) (pools : List (String × α)) :
    List (String × α) × Bool :=
  ((pools.map Prod.fst).foldl
    (fun r k => eraseKey (closePool endThrows r k).1 k) pools, true)

/-!
Concrete example data used to exhibit counterexamples and to discharge the
hypotheses of the universally quantified theorems at concrete inputs.
-/

/-- An environment whose secrets store and filesystem both fail. -/
def exEnvFail : Snow.Env :=
  { secrets := fun _ => .rejected "no network"
    readFile := fun _ => .error "ENOENT: no such file or directory" }

/-- A Snowflake datasource configuration with the four required fields but
neither private key source. -/
def exCfgNoAuth : Snow.SrcCfg :=
  { DB_HOST := some "acct", DB_USER := some "u", DB_DATABASE := some "d", SCHEMA := some "s" }

/-- A Snowflake adapter state whose only datasource has no key source. -/
def exStateNoAuth : Snow.State :=
  { config := { DATASOURCES := [("ds", exCfgNoAuth)] } }

/-- A Snowflake datasource configuration with BOTH a key file path and a key
secret reference configured. -/
def exCfgBoth : Snow.SrcCfg :=
  { DB_HOST := some "acct", DB_USER := some "u", DB_DATABASE := some "d", SCHEMA := some "s"
    PRIVATE_KEY_PATH := some "/key.pem", PRIVATE_KEY_SECRET_NAME := some "sec1"
    PRIVATE_KEY_FIELD_NAME := some "privateKey" }

/-- An environment whose secrets store holds sec1 with a privateKey field and
whose filesystem fails, so only the secret branch can succeed. -/
def exEnvBoth : Snow.Env :=
  { secrets := fun n => if n = "sec1" then .record [("privateKey", .str "PEMKEY")]
      else .rejected "missing"
    readFile := fun _ => .error "ENOENT: no such file or directory" }

/-- A Snowflake adapter state whose only datasource configures both key
sources. -/
def exStateBoth : Snow.State :=
  { config := { DATASOURCES := [("ds", exCfgBoth)] } }

/-- A Snowflake datasource configuration using the secrets store with a field
name that the secret does not contain. -/
def exCfgSecretMiss : Snow.SrcCfg :=
  { DB_HOST := some "acct", DB_USER := some "u", DB_DATABASE := some "d", SCHEMA := some "s"
    PRIVATE_KEY_SECRET_NAME := some "sec1", PRIVATE_KEY_FIELD_NAME := some "wrongField" }

/-- The parsed payload of the example secret: two top-level fields. -/
def exSecretFields : List (String × Snow.JsVal) :=
  [("privateKey", .str "PEMKEY"), ("otherField", .str "x")]

/-- An environment whose secrets store holds sec1 with the two fields above. -/
def exEnvSecret : Snow.Env :=
  { secrets := fun n => if n = "sec1" then .record exSecretFields else .rejected "missing"
    readFile := fun _ => .error "ENOENT: no such file or directory" }

/-- A Snowflake adapter state whose only datasource points at the wrong
secret field. -/
def exStateSecretMiss : Snow.State :=
  { config := { DATASOURCES := [("ds", exCfgSecretMiss)] } }

/-- A MySQL datasource configuration missing DB_HOST and DB_DATABASE. -/
def exMyCfgNoHost : MySql.SrcCfg := { DB_USER := some "u" }

/-- A MySQL adapter state whose only datasource misses required fields. -/
def exMyStateNoHost : MySql.State :=
  { config := { DATASOURCES := [("db1", exMyCfgNoHost)] } }

/-- A MySQL adapter state with no datasources and no pools. -/
def exMyStateEmpty : MySql.State := {}

/-- A Snowflake adapter state with no datasources and no pools. -/
def exStateEmpty : Snow.State := {}

/-- A Snowflake pool handle with default options. -/
def exPool : Snow.SnowPool := { options := {}, max := 10, min := 0 }

/-- A Snowflake adapter state that already has a pool registered for ds. -/
def exStIdem : Snow.State := { pools := [("ds", exPool)] }

/-- A MySQL pool handle built from an empty configuration. -/
def exMyPool : MySql.MySqlPool := { options := MySql.buildOptions {} }

/-- A MySQL adapter state that already has a pool registered for ds. -/
def exMyStIdem : MySql.State := { pools := [("ds", exMyPool)] }

/-!
Helper lemmas about the registry operations and the creation functions.
-/

/-- After a JS property assignment, lookup of that key yields the assigned
value. -/
theorem lookupKey_setKey {α : Type} (r : List (String × α)) (k : String) (v : α) :
    lookupKey (setKey r k v) k = some v := by
  simp [setKey, lookupKey]

/-- Membership after eraseKey: the entry was there and its key differs. -/
theorem mem_of_mem_eraseKey {α : Type} {e : String × α} {r : List (String × α)} {k : String}
    (h : e ∈ eraseKey r k) : e ∈ r ∧ e.1 ≠ k := by
  simp only [eraseKey, List.mem_filter, bne_iff_ne, ne_eq] at h
  exact ⟨h.1, h.2⟩

/-- The registry left behind by closePool only loses entries. -/
theorem mem_of_mem_closePool {α : Type} (endThrows : String → Bool)
    {r : List (String × α)} {k : String} {e : String × α}
    (h : e ∈ (closePool endThrows r k).1) : e ∈ r := by
  unfold closePool at h
  cases hl : lookupKey r k with
  | some v =>
    rw [hl] at h
    by_cases ht : endThrows k = true
    · simp only [ht, if_true] at h
      exact (mem_of_mem_eraseKey h).1
    · simp only [eq_false_of_ne_true ht, if_false] at h
      exact (mem_of_mem_eraseKey h).1
  | none =>
    rw [hl] at h
    exact h

/-- Folding the loop body of closeAllPools over a key list covering every
entry of the registry ends with an empty registry. -/
theorem foldl_close_eq_nil {α : Type} (endThrows : String → Bool) (keys : List String) :
    ∀ pools : List (String × α), (∀ e ∈ pools, e.1 ∈ keys) →
      keys.foldl (fun r k => eraseKey (closePool endThrows r k).1 k) pools = [] := by
  induction keys with
  | nil =>
    intro pools h
    cases pools with
    | nil => rfl
    | cons e es => exact absurd (h e (List.mem_cons_self e es)) (by simp)
  | cons k ks ih =>
    intro pools h
    simp only [List.foldl_cons]
    apply ih
    intro e he
    have h1 := mem_of_mem_eraseKey he
    have h2 := mem_of_mem_closePool endThrows h1.1
    have h3 := h e h2
    simp only [List.mem_cons] at h3
    rcases h3 with h3 | h3
    · exact absurd h3 h1.2
    · exact h3

/-- createSnowPool either fails leaving the state untouched, or succeeds. -/
theorem createSnowPool_cases (env : Snow.Env) (st : Snow.State) (n : String) :
    Snow.createSnowPool env st n = (st, false) ∨ (Snow.createSnowPool env st n).2 = true := by
  simp only [Snow.createSnowPool]
  split
  · exact Or.inl rfl
  · split
    · exact Or.inl rfl
    · split
      · exact Or.inl rfl
      · exact Or.inr rfl

/-- A failed createSnowPool leaves the module state untouched. -/
theorem createSnowPool_state_of_false {env : Snow.Env} {st : Snow.State} {n : String}
    (h : (Snow.createSnowPool env st n).2 = false) :
    (Snow.createSnowPool env st n).1 = st := by
  rcases createSnowPool_cases env st n with hc | hc
  · rw [hc]
  · rw [hc] at h
    exact absurd h (by simp)

/-- A failed MySQL createPool leaves the module state untouched. -/
theorem createPool_state_of_false {st : MySql.State} {n : String}
    (h : (MySql.createPool st n).2 = false) :
    (MySql.createPool st n).1 = st := by
  cases hl : lookupKey st.config.DATASOURCES n with
  | some cfg =>
    unfold MySql.createPool at h
    rw [hl] at h
    exact absurd h (by simp)
  | none =>
    unfold MySql.createPool
    rw [hl]

/-- When neither private key source is truthy, validateConfiguration reports
an error (either missing required fields or the missing-authentication
message). -/
theorem validate_isSome_of_no_source (cfg : Snow.SrcCfg) (name : String)
    (hp : jsTruthy cfg.PRIVATE_KEY_PATH = false)
    (hs : jsTruthy cfg.PRIVATE_KEY_SECRET_NAME = false) :
    (Snow.validateConfiguration (some cfg) name).isSome = true := by
  unfold Snow.validateConfiguration
  simp only [hp, hs, Bool.not_false, Bool.and_self, if_true]
  split
  · rfl
  · rfl

/-!
Claim theorems.
-/

/-- Claim C10: in the MySQL adapter the typeCast connection option built by
createPool is computed as TYPE_CAST || true, so it is true for every
datasource configuration; configuring TYPE_CAST to false still yields
typeCast = true, and type casting can never actually be disabled. -/
theorem C10_typeCast_always_true (cfg : MySql.SrcCfg) :
    (MySql.buildOptions cfg).typeCast = true := by
  cases h : cfg.TYPE_CAST with
  | none => simp [MySql.buildOptions, jsOrBool, h]
  | some b => cases b <;> simp [MySql.buildOptions, jsOrBool, h]

/-- Claim C5: in the Snowflake adapter, when the driver reports a
statement-execution error to the complete callback, the query promise
rejects with no error payload at all, whatever the hide-errors flag is, so
the rejection carries no message and handleError is not applied on that
path. -/
theorem C5_complete_error_rejects_without_payload (hide : Bool) (msg : String) :
    Snow.query hide (Snow.DriverOutcome.completeErr msg) = QueryResult.rejectedWith none
    ∧ Snow.query hide (Snow.DriverOutcome.completeErr msg)
      ≠ QueryResult.rejectedWith (Snow.handleError hide msg) := by
  constructor
  · rfl
  · cases hide <;> simp [Snow.query, Snow.handleError]

/-- Claim C9: closeAllPools removes every entry from the pool registry and
returns true (in the model no iteration can throw, closePool trapping its
own failures): afterwards no previously registered name looks up to a pool
any more, so a later connect must run pool creation afresh. Stated for any
pool handle type, covering both adapter modules. -/
theorem C9_closeAllPools_empties {α : Type} (endThrows : String → Bool)
    (pools : List (String × α)) :
    (closeAllPools endThrows pools).1 = []
    ∧ (closeAllPools endThrows pools).2 = true
    ∧ ∀ name : String, lookupKey (closeAllPools endThrows pools).1 name = none := by
  have hempty : (closeAllPools endThrows pools).1 = [] := by
    unfold closeAllPools
    exact foldl_close_eq_nil endThrows (pools.map Prod.fst) pools
      (fun e he => List.mem_map_of_mem Prod.fst he)
  refine ⟨hempty, rfl, fun name => ?_⟩
  rw [hempty]
  rfl

/-- Claim C7: for a datasource name absent from DATASOURCES, createPool
(MySQL) and createSnowPool (Snowflake) return false and leave the module
state, in particular the pool registry, unchanged. -/
theorem C7_absent_datasource_returns_false (env : Snow.Env) (st : Snow.State)
    (mst : MySql.State) (name : String)
    (hs : lookupKey st.config.DATASOURCES name = none)
    (hm : lookupKey mst.config.DATASOURCES name = none) :
    Snow.createSnowPool env st name = (st, false)
    ∧ MySql.createPool mst name = (mst, false) := by
  constructor
  · simp [Snow.createSnowPool, hs, Snow.validateConfiguration]
  · simp [MySql.createPool, hm]

/-- Witness for claim C7 at a state with no datasources. -/
theorem C7_witness :
    lookupKey exStateEmpty.config.DATASOURCES "missing" = none
    ∧ lookupKey exMyStateEmpty.config.DATASOURCES "missing" = none
    ∧ (Snow.createSnowPool exEnvFail exStateEmpty "missing" = (exStateEmpty, false)
       ∧ MySql.createPool exMyStateEmpty "missing" = (exMyStateEmpty, false)) :=
  ⟨rfl, rfl,
    C7_absent_datasource_returns_false exEnvFail exStateEmpty exMyStateEmpty "missing" rfl rfl⟩

/-- Claim C6: connect is idempotent on the pool registry: when a pool is
already registered under a name, connect returns that same pool handle and
leaves the state unchanged, without invoking pool creation, in both
adapters. -/
theorem C6_connect_idempotent (env : Snow.Env) (st : Snow.State) (mst : MySql.State)
    (name : String) (p : Snow.SnowPool) (q : MySql.MySqlPool)
    (hs : lookupKey st.pools name = some p)
    (hm : lookupKey mst.pools name = some q) :
    Snow.connect env st name = (st, Except.ok (some p))
    ∧ MySql.connect mst name = (mst, Except.ok (some q)) := by
  constructor
  · simp [Snow.connect, hs]
  · simp [MySql.connect, hm]

/-- Witness for claim C6 at states that already hold a pool for ds. -/
theorem C6_witness :
    lookupKey exStIdem.pools "ds" = some exPool
    ∧ lookupKey exMyStIdem.pools "ds" = some exMyPool
    ∧ (Snow.connect exEnvFail exStIdem "ds" = (exStIdem, Except.ok (some exPool))
       ∧ MySql.connect exMyStIdem "ds" = (exMyStIdem, Except.ok (some exMyPool))) :=
  ⟨rfl, rfl,
    C6_connect_idempotent exEnvFail exStIdem exMyStIdem "ds" exPool exMyPool rfl rfl⟩

/-- Counterexample to claim C1: a Snowflake datasource configuration with
BOTH PRIVATE_KEY_PATH and PRIVATE_KEY_SECRET_NAME set is not rejected;
with the secret resolvable, createSnowPool succeeds and returns true, even
though the file read would fail. -/
theorem C1_counterexample :
    jsTruthy exCfgBoth.PRIVATE_KEY_PATH = true
    ∧ jsTruthy exCfgBoth.PRIVATE_KEY_SECRET_NAME = true
    ∧ lookupKey exStateBoth.config.DATASOURCES "ds" = some exCfgBoth
    ∧ (Snow.createSnowPool exEnvBoth exStateBoth "ds").2 = true := by
  refine ⟨by decide, by decide, rfl, by decide⟩

/-- Claim C1 as amended: for every Snowflake datasource configuration in
which NEITHER PRIVATE_KEY_PATH nor PRIVATE_KEY_SECRET_NAME is set (truthy),
createSnowPool returns false and leaves the state unchanged. A
configuration with both sources set is not treated as invalid: the
validation only requires at least one source, and the secret branch then
takes precedence. -/
theorem C1_amended_neither_source_fails (env : Snow.Env) (st : Snow.State)
    (name : String) (cfg : Snow.SrcCfg)
    (hlk : lookupKey st.config.DATASOURCES name = some cfg)
    (hpath : jsTruthy cfg.PRIVATE_KEY_PATH = false)
    (hsec : jsTruthy cfg.PRIVATE_KEY_SECRET_NAME = false) :
    Snow.createSnowPool env st name = (st, false) := by
  have hv := validate_isSome_of_no_source cfg name hpath hsec
  simp only [Snow.createSnowPool, hlk]
  cases hval : Snow.validateConfiguration (some cfg) name with
  | some e => rfl
  | none =>
    rw [hval] at hv
    exact absurd hv (by simp)

/-- Witness for the amended claim C1 at a configuration with all required
fields and no key source. -/
theorem C1_witness :
    lookupKey exStateNoAuth.config.DATASOURCES "ds" = some exCfgNoAuth
    ∧ jsTruthy exCfgNoAuth.PRIVATE_KEY_PATH = false
    ∧ jsTruthy exCfgNoAuth.PRIVATE_KEY_SECRET_NAME = false
    ∧ Snow.createSnowPool exEnvFail exStateNoAuth "ds" = (exStateNoAuth, false) :=
  ⟨rfl, rfl, rfl,
    C1_amended_neither_source_fails exEnvFail exStateNoAuth "ds" exCfgNoAuth rfl rfl rfl⟩

/-- Counterexample to claim C3: at a datasource whose pool creation fails
(createSnowPool returns false and no pool exists), connect does not throw;
it returns ok with no pool (undefined), carrying no failure message. -/
theorem C3_counterexample :
    lookupKey exStateNoAuth.pools "ds" = none
    ∧ (Snow.createSnowPool exEnvFail exStateNoAuth "ds").2 = false
    ∧ (Snow.connect exEnvFail exStateNoAuth "ds").2 = Except.ok none := by
  refine ⟨rfl, by decide, by rfl⟩

/-- Claim C3 as amended: when pool creation fails for a name with no
registered pool, connect does not throw at all: createPool and
createSnowPool report failure by returning false instead of throwing, so
the catch branch of connect is unreachable and connect returns undefined
(no pool) with no error, in both adapters. -/
theorem C3_amended_connect_returns_undefined (env : Snow.Env) (st : Snow.State)
    (mst : MySql.State) (name : String)
    (h1 : lookupKey st.pools name = none)
    (h2 : (Snow.createSnowPool env st name).2 = false)
    (h3 : lookupKey mst.pools name = none)
    (h4 : (MySql.createPool mst name).2 = false) :
    (Snow.connect env st name).2 = Except.ok none
    ∧ (MySql.connect mst name).2 = Except.ok none := by
  have e2 : (Snow.createSnowPool env st name).1 = st := createSnowPool_state_of_false h2
  have e4 : (MySql.createPool mst name).1 = mst := createPool_state_of_false h4
  constructor
  · simp [Snow.connect, h1, e2]
  · simp [MySql.connect, h3, e4]

/-- Witness for the amended claim C3 at concrete failing datasources. -/
theorem C3_witness :
    lookupKey exStateNoAuth.pools "ds" = none
    ∧ (Snow.createSnowPool exEnvFail exStateNoAuth "ds").2 = false
    ∧ lookupKey exMyStateEmpty.pools "ds" = none
    ∧ (MySql.createPool exMyStateEmpty "ds").2 = false
    ∧ ((Snow.connect exEnvFail exStateNoAuth "ds").2 = Except.ok none
       ∧ (MySql.connect exMyStateEmpty "ds").2 = Except.ok none) :=
  ⟨rfl, by decide, rfl, rfl,
    C3_amended_connect_returns_undefined exEnvFail exStateNoAuth exMyStateEmpty "ds"
      rfl (by decide) rfl rfl⟩

/-- Counterexample to claim C2: with HIDE_DB_ERRORS set, a Snowflake
statement error reported to the complete callback is rejected with no
payload, which is neither the fixed generic message nor the original driver
message. -/
theorem C2_counterexample :
    Snow.query true (Snow.DriverOutcome.completeErr "SQL compilation error")
      = QueryResult.rejectedWith none
    ∧ QueryResult.rejectedWith (none : Option String)
      ≠ QueryResult.rejectedWith (some genericError)
    ∧ QueryResult.rejectedWith (none : Option String)
      ≠ QueryResult.rejectedWith (some "SQL compilation error") := by
  refine ⟨rfl, by simp, by simp⟩

/-- Claim C2 as amended: the hide-errors policy holds for every failure
routed through handleError, namely every MySQL query failure (callback
error or synchronous throw) and every Snowflake synchronous throw: flag set
gives the fixed generic message, flag unset gives the original driver
message unchanged. A Snowflake statement error reported to the complete
callback bypasses the policy and rejects with no payload whatever the flag
is. -/
theorem C2_amended_error_policy (msg : String) (hide : Bool) :
    MySql.query true (MySql.DriverOutcome.err msg)
      = QueryResult.rejectedWith (some genericError)
    ∧ MySql.query false (MySql.DriverOutcome.err msg)
      = QueryResult.rejectedWith (some msg)
    ∧ MySql.query true (MySql.DriverOutcome.syncThrow msg)
      = QueryResult.rejectedWith (some genericError)
    ∧ MySql.query false (MySql.DriverOutcome.syncThrow msg)
      = QueryResult.rejectedWith (some msg)
    ∧ Snow.query true (Snow.DriverOutcome.syncThrow msg)
      = QueryResult.rejectedWith (some genericError)
    ∧ Snow.query false (Snow.DriverOutcome.syncThrow msg)
      = QueryResult.rejectedWith (some msg)
    ∧ Snow.query hide (Snow.DriverOutcome.completeErr msg)
      = QueryResult.rejectedWith none :=
  ⟨rfl, rfl, rfl, rfl, rfl, rfl, rfl⟩

/-- Counterexample to claim C4: a MySQL datasource configuration present in
DATASOURCES but missing DB_HOST and DB_DATABASE still leads createPool to
return true and register a pool, instead of returning false. -/
theorem C4_counterexample :
    jsTruthy exMyCfgNoHost.DB_HOST = false
    ∧ jsTruthy exMyCfgNoHost.DB_DATABASE = false
    ∧ lookupKey exMyStateNoHost.config.DATASOURCES "db1" = some exMyCfgNoHost
    ∧ (MySql.createPool exMyStateNoHost "db1").2 = true
    ∧ lookupKey (MySql.createPool exMyStateNoHost "db1").1.pools "db1"
      = some { options := MySql.buildOptions exMyCfgNoHost } := by
  refine ⟨rfl, rfl, rfl, by decide, by decide⟩

/-- Claim C4 as amended: the MySQL createPool performs no required-field
validation at all: for every datasource entry present in DATASOURCES, even
one missing host, user and database, it builds the options, registers a
pool under the name and returns true; only a name with no entry at all
yields false. -/
theorem C4_amended_no_field_validation (st : MySql.State) (name : String)
    (cfg : MySql.SrcCfg)
    (hlk : lookupKey st.config.DATASOURCES name = some cfg) :
    (MySql.createPool st name).2 = true
    ∧ lookupKey (MySql.createPool st name).1.pools name
      = some { options := MySql.buildOptions cfg } := by
  refine ⟨?_, ?_⟩
  · simp only [MySql.createPool, hlk]
  · simp only [MySql.createPool, hlk]
    exact lookupKey_setKey _ _ _

/-- Witness for the amended claim C4 at the configuration missing its
required fields. -/
theorem C4_witness :
    lookupKey exMyStateNoHost.config.DATASOURCES "db1" = some exMyCfgNoHost
    ∧ ((MySql.createPool exMyStateNoHost "db1").2 = true
       ∧ lookupKey (MySql.createPool exMyStateNoHost "db1").1.pools "db1"
         = some { options := MySql.buildOptions exMyCfgNoHost }) :=
  ⟨rfl, C4_amended_no_field_validation exMyStateNoHost "db1" exMyCfgNoHost rfl⟩

/-- Claim C8: for Snowflake secret-based key resolution, when the configured
PRIVATE_KEY_FIELD_NAME is absent from the parsed secret payload, key
resolution raises the error naming the secret identifier and listing as
available fields exactly the top-level keys of the parsed secret, and
createSnowPool fails leaving the registry unchanged. -/
theorem C8_secret_field_miss (env : Snow.Env) (st : Snow.State) (name : String)
    (cfg : Snow.SrcCfg) (secretData : List (String × Snow.JsVal))
    (hlk : lookupKey st.config.DATASOURCES name = some cfg)
    (hval : Snow.validateConfiguration (some cfg) name = none)
    (hsec : jsTruthy cfg.PRIVATE_KEY_SECRET_NAME = true)
    (hfield : jsTruthy cfg.PRIVATE_KEY_FIELD_NAME = true)
    (hdata : env.secrets (cfg.PRIVATE_KEY_SECRET_NAME.getD "")
      = Snow.SecretResult.record secretData)
    (hmiss : lookupKey secretData (cfg.PRIVATE_KEY_FIELD_NAME.getD "") = none) :
    Snow.getPrivateKeyFromSecrets env.secrets cfg
      = Except.error ("Private key not found in secret "
        ++ cfg.PRIVATE_KEY_SECRET_NAME.getD "" ++ ". Field \x27"
        ++ cfg.PRIVATE_KEY_FIELD_NAME.getD ""
        ++ "\x27 does not exist. Available fields: "
        ++ String.intercalate ", " (secretData.map Prod.fst))
    ∧ (Snow.createSnowPool env st name).2 = false
    ∧ (Snow.createSnowPool env st name).1.pools = st.pools := by
  have hgp : Snow.getPrivateKeyFromSecrets env.secrets cfg
      = Except.error ("Private key not found in secret "
        ++ cfg.PRIVATE_KEY_SECRET_NAME.getD "" ++ ". Field \x27"
        ++ cfg.PRIVATE_KEY_FIELD_NAME.getD ""
        ++ "\x27 does not exist. Available fields: "
        ++ String.intercalate ", " (secretData.map Prod.fst)) := by
    simp [Snow.getPrivateKeyFromSecrets, hsec, hfield, hdata, hmiss]
  refine ⟨hgp, ?_, ?_⟩ <;>
    simp [Snow.createSnowPool, hlk, hval, hsec, hgp, Except.map]

/-- Witness for claim C8 at a secret holding privateKey and otherField while
the configuration asks for wrongField. -/
theorem C8_witness :
    lookupKey exStateSecretMiss.config.DATASOURCES "ds" = some exCfgSecretMiss
    ∧ Snow.validateConfiguration (some exCfgSecretMiss) "ds" = none
    ∧ jsTruthy exCfgSecretMiss.PRIVATE_KEY_SECRET_NAME = true
    ∧ jsTruthy exCfgSecretMiss.PRIVATE_KEY_FIELD_NAME = true
    ∧ exEnvSecret.secrets (exCfgSecretMiss.PRIVATE_KEY_SECRET_NAME.getD "")
      = Snow.SecretResult.record exSecretFields
    ∧ lookupKey exSecretFields (exCfgSecretMiss.PRIVATE_KEY_FIELD_NAME.getD "") = none
    ∧ (Snow.getPrivateKeyFromSecrets exEnvSecret.secrets exCfgSecretMiss
        = Except.error ("Private key not found in secret "
          ++ exCfgSecretMiss.PRIVATE_KEY_SECRET_NAME.getD "" ++ ". Field \x27"
          ++ exCfgSecretMiss.PRIVATE_KEY_FIELD_NAME.getD ""
          ++ "\x27 does not exist. Available fields: "
          ++ String.intercalate ", " (exSecretFields.map Prod.fst))
       ∧ (Snow.createSnowPool exEnvSecret exStateSecretMiss "ds").2 = false
       ∧ (Snow.createSnowPool exEnvSecret exStateSecretMiss "ds").1.pools
         = exStateSecretMiss.pools) :=
  ⟨rfl, rfl, rfl, rfl, rfl, rfl,
    C8_secret_field_miss exEnvSecret exStateSecretMiss "ds" exCfgSecretMiss exSecretFields
      rfl rfl rfl rfl rfl rfl⟩
